import Mathlib

/-!
# cosmos-sdk: IBC packets, packet commitments and solo machine messages

A shallow embedding of

* `x/ibc/04-channel/types/packet.go` (`CommitPacket`, `CommitAcknowledgement`,
  `Packet.ValidateBasic`),
* `x/ibc/06-solomachine/types/msgs.go` (`ValidateBasic` and `GetSigners` of the
  three solo machine messages),
* `types/tx/generator/encoder.go` (`DefaultTxEncoder`, `DefaultJSONTxEncoder`),

followed by the properties proved about them.

Conventions: a Go `error` is an `Option SdkError` (`none` is `nil`); a `[]byte`
is a `List Nat` of values below 256; a `uint64` is a `Nat` below `2 ^ 64`.
Everything the files import from other packages (identifier validators,
`fmt.Sprintf`, the hash, registered error values, the embedded consensus state,
header and evidence types) is a parameter of the definitions.
-/

namespace CosmosSDK

/-! ## Errors -/

/-- Error values of the `sdkerrors` package: either a registered error (a
package level variable such as `ErrInvalidPacket`) or an error wrapped with a
description. -/
inductive SdkError where
  | registered (codespace : String) (code : Nat) (description : String)
  | wrapped (parent : SdkError) (msg : String)
  deriving DecidableEq

/-- Modelled from the spec: the `Error()` method of `sdkerrors` errors (package
`types/errors`, not among the sources), the text of an error: a registered
error prints its description, a wrapped error prints `msg: parent`. -/
def SdkError.Error : SdkError → String
  | .registered _ _ description => description
  | .wrapped parent msg => msg ++ ": " ++ parent.Error

/-- Modelled from the spec: `sdkerrors.Wrap` (package `types/errors`, not among
the sources). The spec writes an error as `Kind("reason")`: an error kind
carrying a reason; `Wrap err description` is the error `err` extended with
`description`. Only called here with a non-nil `err`. -/
def Wrap (err : SdkError) (description : String) : SdkError :=
  .wrapped err description

/-- Modelled from the spec: `sdkerrors.Wrapf` (package `types/errors`, not among
the sources): `Wrap` with the description formatted by `fmt.Sprintf`, which is
the parameter `Sprintf`. -/
def Wrapf (Sprintf : String → List String → String) (err : SdkError)
    (format : String) (args : List String) : SdkError :=
  Wrap err (Sprintf format args)

/-! ## Packets (`x/ibc/04-channel/types/packet.go`) -/

/-- The `Packet` type, with the fields `NewPacket` fills in. -/
structure Packet where
  Data : List Nat
  Sequence : Nat
  SourcePort : String
  SourceChannel : String
  DestinationPort : String
  DestinationChannel : String
  TimeoutHeight : Nat
  deriving DecidableEq

/-- `NewPacket` creates a new Packet instance. -/
def NewPacket (data : List Nat) (sequence : Nat)
    (sourcePort sourceChannel destinationPort destinationChannel : String)
    (timeoutHeight : Nat) : Packet :=
  { Data := data
    Sequence := sequence
    SourcePort := sourcePort
    SourceChannel := sourceChannel
    DestinationPort := destinationPort
    DestinationChannel := destinationChannel
    TimeoutHeight := timeoutHeight }

/-- `GetSequence` implements PacketI. -/
def Packet.GetSequence (p : Packet) : Nat := p.Sequence

/-- `GetSourcePort` implements PacketI. -/
def Packet.GetSourcePort (p : Packet) : String := p.SourcePort

/-- `GetSourceChannel` implements PacketI. -/
def Packet.GetSourceChannel (p : Packet) : String := p.SourceChannel

/-- `GetDestPort` implements PacketI. -/
def Packet.GetDestPort (p : Packet) : String := p.DestinationPort

/-- `GetDestChannel` implements PacketI. -/
def Packet.GetDestChannel (p : Packet) : String := p.DestinationChannel

/-- `GetData` implements PacketI. -/
def Packet.GetData (p : Packet) : List Nat := p.Data

/-- `GetTimeoutHeight` implements PacketI. -/
def Packet.GetTimeoutHeight (p : Packet) : Nat := p.TimeoutHeight

/-- What `packet.go` imports for `ValidateBasic`: the two identifier validators
of package `24-host`, `fmt.Sprintf` (used inside `Wrapf`) and the registered
error `ErrInvalidPacket` of the channel package. -/
structure ChannelDeps where
  DefaultPortIdentifierValidator : String → Option SdkError
  DefaultChannelIdentifierValidator : String → Option SdkError
  Sprintf : String → List String → String
  ErrInvalidPacket : SdkError

/-- `Packet.ValidateBasic` implements PacketI. The seven checks of the source,
in the source order; for an identifier the inner `Wrapf(...).Error()` is passed
to the outer `Wrapf` as its format string, with no arguments. -/
def Packet.ValidateBasic (d : ChannelDeps) (p : Packet) : Option SdkError :=
  match d.DefaultPortIdentifierValidator p.SourcePort with
  | some err =>
    some (Wrapf d.Sprintf d.ErrInvalidPacket
      (Wrapf d.Sprintf err "invalid source port ID: %s" [p.SourcePort]).Error [])
  | none =>
  match d.DefaultPortIdentifierValidator p.DestinationPort with
  | some err =>
    some (Wrapf d.Sprintf d.ErrInvalidPacket
      (Wrapf d.Sprintf err "invalid destination port ID: %s" [p.DestinationPort]).Error [])
  | none =>
  match d.DefaultChannelIdentifierValidator p.SourceChannel with
  | some err =>
    some (Wrapf d.Sprintf d.ErrInvalidPacket
      (Wrapf d.Sprintf err "invalid source channel ID: %s" [p.SourceChannel]).Error [])
  | none =>
  match d.DefaultChannelIdentifierValidator p.DestinationChannel with
  | some err =>
    some (Wrapf d.Sprintf d.ErrInvalidPacket
      (Wrapf d.Sprintf err "invalid destination channel ID: %s" [p.DestinationChannel]).Error [])
  | none =>
  if p.Sequence = 0 then
    some (Wrap d.ErrInvalidPacket "packet sequence cannot be 0")
  else if p.TimeoutHeight = 0 then
    some (Wrap d.ErrInvalidPacket "packet timeout cannot be 0")
  else if p.Data.length = 0 then
    some (Wrap d.ErrInvalidPacket "packet data bytes cannot be empty")
  else
    none

/-- The bytes of the ASCII text `hello`. -/
def helloBytes : List Nat := [104, 101, 108, 108, 111]

/-- The packet of the positive example: sequence 1, ports `transfer`, channels
`channel-0` and `channel-1`, timeout height 100, data `hello`. -/
def examplePacket : Packet :=
  NewPacket helloBytes 1 "transfer" "channel-0" "transfer" "channel-1" 100

/-! ### The checks of `ValidateBasic`, one by one

The spec describes `ValidateBasic` as seven checks run in a fixed order, the
first failing one deciding the error. Each check below reads one field only. -/

/-- Check 1 of the spec: the source port, through the port validator. -/
def checkSourcePort (d : ChannelDeps) (sourcePort : String) : Option SdkError :=
  (d.DefaultPortIdentifierValidator sourcePort).map fun err =>
    Wrapf d.Sprintf d.ErrInvalidPacket
      (Wrapf d.Sprintf err "invalid source port ID: %s" [sourcePort]).Error []

/-- Check 2 of the spec: the destination port, through the port validator. -/
def checkDestinationPort (d : ChannelDeps) (destinationPort : String) : Option SdkError :=
  (d.DefaultPortIdentifierValidator destinationPort).map fun err =>
    Wrapf d.Sprintf d.ErrInvalidPacket
      (Wrapf d.Sprintf err "invalid destination port ID: %s" [destinationPort]).Error []

/-- Check 3 of the spec: the source channel, through the channel validator. -/
def checkSourceChannel (d : ChannelDeps) (sourceChannel : String) : Option SdkError :=
  (d.DefaultChannelIdentifierValidator sourceChannel).map fun err =>
    Wrapf d.Sprintf d.ErrInvalidPacket
      (Wrapf d.Sprintf err "invalid source channel ID: %s" [sourceChannel]).Error []

/-- Check 4 of the spec: the destination channel, through the channel validator. -/
def checkDestinationChannel (d : ChannelDeps) (destinationChannel : String) :
    Option SdkError :=
  (d.DefaultChannelIdentifierValidator destinationChannel).map fun err =>
    Wrapf d.Sprintf d.ErrInvalidPacket
      (Wrapf d.Sprintf err "invalid destination channel ID: %s" [destinationChannel]).Error []

/-- Check 5 of the spec: the sequence is not 0. -/
def checkSequence (d : ChannelDeps) (sequence : Nat) : Option SdkError :=
  if sequence = 0 then some (Wrap d.ErrInvalidPacket "packet sequence cannot be 0") else none

/-- Check 6 of the spec: the timeout height is not 0. -/
def checkTimeoutHeight (d : ChannelDeps) (timeoutHeight : Nat) : Option SdkError :=
  if timeoutHeight = 0 then some (Wrap d.ErrInvalidPacket "packet timeout cannot be 0") else none

/-- Check 7 of the spec: the data is not empty. -/
def checkData (d : ChannelDeps) (data : List Nat) : Option SdkError :=
  if data.length = 0 then some (Wrap d.ErrInvalidPacket "packet data bytes cannot be empty")
  else none

/-- The seven checks of a packet in the fixed order of the spec. -/
def Packet.checks (d : ChannelDeps) (p : Packet) : List (Option SdkError) :=
  [checkSourcePort d p.SourcePort, checkDestinationPort d p.DestinationPort,
   checkSourceChannel d p.SourceChannel, checkDestinationChannel d p.DestinationChannel,
   checkSequence d p.Sequence, checkTimeoutHeight d p.TimeoutHeight, checkData d p.Data]

/-- First-failure semantics of the spec: the error of the first check in the
list that reports one, nil when none does. -/
def firstFailure : List (Option SdkError) → Option SdkError
  | [] => none
  | some e :: _ => some e
  | none :: rest => firstFailure rest

/-- The reasons the spec attaches to checks 1 to 7 (section 4.2). -/
def specReasons : List String :=
  ["invalid source port", "invalid destination port", "invalid source channel",
   "invalid destination channel", "sequence cannot be 0", "timeout cannot be 0",
   "data cannot be empty"]

/-! ### Commitments -/

/-- Modelled from the spec: `sdk.Uint64ToBigEndian` (`types/utils.go`, not among
the sources), the spec's `bigEndian(packet.timeoutHeight)`: the eight bytes of a
`uint64`, most significant byte first. -/
def Uint64ToBigEndian (i : Nat) : List Nat :=
  [i / 2 ^ 56 % 256, i / 2 ^ 48 % 256, i / 2 ^ 40 % 256, i / 2 ^ 32 % 256,
   i / 2 ^ 24 % 256, i / 2 ^ 16 % 256, i / 2 ^ 8 % 256, i % 256]

/-- The number a byte string denotes when read most significant byte first. -/
def bigEndianValue (bz : List Nat) : Nat :=
  bz.foldl (fun acc b => acc * 256 + b) 0

/-- `CommitPacket` returns the hash of the commitment bytes. `tmhashSum` is
`tmhash.Sum`. -/
def CommitPacket (tmhashSum : List Nat → List Nat) (packet : Packet) : List Nat :=
  let buf := Uint64ToBigEndian packet.GetTimeoutHeight
  let buf := buf ++ packet.GetData
  tmhashSum buf

/-- `CommitAcknowledgement` returns the hash of the commitment bytes. `tmhashSum` is
`tmhash.Sum`. -/
def CommitAcknowledgement (tmhashSum : List Nat → List Nat) (data : List Nat) : List Nat :=
  tmhashSum data

/-- The byte string the spec says is hashed for a packet:
`bigEndian(packet.timeoutHeight) ++ packet.data`. -/
def commitmentPreimage (p : Packet) : List Nat :=
  Uint64ToBigEndian p.TimeoutHeight ++ p.Data

/-! ## Solo machine messages (`x/ibc/06-solomachine/types/msgs.go`) -/

/-- An `sdk.AccAddress`: a byte string. -/
abbrev AccAddress := List Nat

/-- Modelled from the spec: `AccAddress.Empty` (`types/address.go`, not among
the sources); the spec asks for a non-empty submitter address, so an address is
empty when it has no bytes. -/
def AccAddress.Empty (aa : AccAddress) : Bool := aa.isEmpty

/-- What `msgs.go` imports: the methods of the embedded consensus state (`CS`),
header (`H`) and evidence (`EV`) types, the address of a public key (`PK`), the
client identifier validator of package `24-host` and the registered error
`ErrInvalidAddress`. -/
structure SoloMachineDeps (CS H EV PK : Type) where
  ConsensusStateValidateBasic : CS → Option SdkError
  ConsensusStateGetPubKey : CS → PK
  HeaderValidateBasic : H → Option SdkError
  HeaderGetPubKey : H → PK
  EvidenceValidateBasic : EV → Option SdkError
  PubKeyAddress : PK → List Nat
  ClientIdentifierValidator : String → Option SdkError
  ErrInvalidAddress : SdkError

/-- The message `MsgCreateClient`. -/
structure MsgCreateClient (CS : Type) where
  ClientID : String
  ConsensusState : CS

/-- The message `MsgUpdateClient`. -/
structure MsgUpdateClient (H : Type) where
  ClientID : String
  Header : H

/-- The message `MsgSubmitClientMisbehaviour`. -/
structure MsgSubmitClientMisbehaviour (EV : Type) where
  Evidence : EV
  Submitter : AccAddress

section SoloMachine

variable {CS H EV PK : Type}

/-- `NewMsgCreateClient` creates a new MsgCreateClient instance. -/
def NewMsgCreateClient (id : String) (consensusState : CS) : MsgCreateClient CS :=
  { ClientID := id, ConsensusState := consensusState }

/-- `MsgCreateClient.ValidateBasic` implements sdk.Msg. -/
def MsgCreateClient.ValidateBasic (d : SoloMachineDeps CS H EV PK)
    (msg : MsgCreateClient CS) : Option SdkError :=
  match d.ConsensusStateValidateBasic msg.ConsensusState with
  | some err => some err
  | none => d.ClientIdentifierValidator msg.ClientID

/-- `MsgCreateClient.GetSigners` implements sdk.Msg. -/
def MsgCreateClient.GetSigners (d : SoloMachineDeps CS H EV PK)
    (msg : MsgCreateClient CS) : List AccAddress :=
  [d.PubKeyAddress (d.ConsensusStateGetPubKey msg.ConsensusState)]

/-- `NewMsgUpdateClient` creates a new MsgUpdateClient instance. -/
def NewMsgUpdateClient (id : String) (header : H) : MsgUpdateClient H :=
  { ClientID := id, Header := header }

/-- `MsgUpdateClient.ValidateBasic` implements sdk.Msg. -/
def MsgUpdateClient.ValidateBasic (d : SoloMachineDeps CS H EV PK)
    (msg : MsgUpdateClient H) : Option SdkError :=
  match d.HeaderValidateBasic msg.Header with
  | some err => some err
  | none => d.ClientIdentifierValidator msg.ClientID

/-- `MsgUpdateClient.GetSigners` implements sdk.Msg. -/
def MsgUpdateClient.GetSigners (d : SoloMachineDeps CS H EV PK)
    (msg : MsgUpdateClient H) : List AccAddress :=
  [d.PubKeyAddress (d.HeaderGetPubKey msg.Header)]

/-- `NewMsgSubmitClientMisbehaviour` creates a new MsgSubmitClientMisbehaviour
instance. -/
def NewMsgSubmitClientMisbehaviour (e : EV) (s : AccAddress) :
    MsgSubmitClientMisbehaviour EV :=
  { Evidence := e, Submitter := s }

/-- `MsgSubmitClientMisbehaviour.ValidateBasic` performs basic
(non-state-dependent) validation. -/
def MsgSubmitClientMisbehaviour.ValidateBasic (d : SoloMachineDeps CS H EV PK)
    (msg : MsgSubmitClientMisbehaviour EV) : Option SdkError :=
  match d.EvidenceValidateBasic msg.Evidence with
  | some err => some err
  | none =>
    if AccAddress.Empty msg.Submitter then
      some (Wrap d.ErrInvalidAddress "submitter address cannot be empty")
    else
      none

/-- `MsgSubmitClientMisbehaviour.GetSigners` returns the single expected signer. -/
def MsgSubmitClientMisbehaviour.GetSigners (msg : MsgSubmitClientMisbehaviour EV) :
    List AccAddress :=
  [msg.Submitter]

/-- `GetEvidence` returns the evidence of the message. -/
def MsgSubmitClientMisbehaviour.GetEvidence (msg : MsgSubmitClientMisbehaviour EV) : EV :=
  msg.Evidence

/-- `GetSubmitter` returns the submitter of the message. -/
def MsgSubmitClientMisbehaviour.GetSubmitter (msg : MsgSubmitClientMisbehaviour EV) :
    AccAddress :=
  msg.Submitter

end SoloMachine

/-! ## Sample instances of the imports

Concrete stand-ins for the imported operations, used only to evaluate the
definitions at concrete inputs. They are not models of the imported packages. -/

/-- A registered error standing for `host.ErrInvalidID`. -/
def sampleErrInvalidID : SdkError := .registered "host" 1 "invalid identifier"

/-- A registered error standing for the channel package `ErrInvalidPacket`. -/
def sampleErrInvalidPacket : SdkError := .registered "channel" 1 "invalid packet"

/-- A registered error standing for `sdkerrors.ErrInvalidAddress`. -/
def sampleErrInvalidAddress : SdkError := .registered "sdk" 7 "invalid address"

/-- A sample identifier validator: rejects the empty identifier only. -/
def sampleIdentifierValidator (id : String) : Option SdkError :=
  if id = "" then some sampleErrInvalidID else none

/-- Sample formatting: every `%s` of the format is replaced by the next
argument (by `%!s(MISSING)` when the arguments have run out). -/
def sampleSprintfChars : List Char → List String → List Char
  | '%' :: 's' :: rest, a :: args => a.toList ++ sampleSprintfChars rest args
  | '%' :: 's' :: rest, [] => "%!s(MISSING)".toList ++ sampleSprintfChars rest []
  | c :: rest, args => c :: sampleSprintfChars rest args
  | [], _ => []

/-- Sample `fmt.Sprintf` for string arguments. -/
def sampleSprintf (format : String) (args : List String) : String :=
  String.mk (sampleSprintfChars format.toList args)

/-- Sample imports of `packet.go`. -/
def sampleChannelDeps : ChannelDeps :=
  { DefaultPortIdentifierValidator := sampleIdentifierValidator
    DefaultChannelIdentifierValidator := sampleIdentifierValidator
    Sprintf := sampleSprintf
    ErrInvalidPacket := sampleErrInvalidPacket }

/-- The packet of the spec's fixed-order example: valid identifiers, sequence 0,
timeout height 0 and no data. -/
def zeroPacket : Packet :=
  NewPacket [] 0 "transfer" "testchannel1" "transfer" "testchannel2" 0

/-- Sample imports of `msgs.go`: consensus states, headers and evidence are
numbers, valid when non-zero; a public key is a number and its address is the
one-byte string holding it. -/
def sampleSoloMachineDeps : SoloMachineDeps Nat Nat Nat Nat :=
  { ConsensusStateValidateBasic := fun cs =>
      if cs = 0 then some (.registered "solomachine" 1 "invalid consensus state") else none
    ConsensusStateGetPubKey := fun cs => cs
    HeaderValidateBasic := fun h =>
      if h = 0 then some (.registered "solomachine" 2 "invalid header") else none
    HeaderGetPubKey := fun h => h
    EvidenceValidateBasic := fun e =>
      if e = 0 then some (.registered "solomachine" 3 "invalid evidence") else none
    PubKeyAddress := fun pk => [pk % 256]
    ClientIdentifierValidator := sampleIdentifierValidator
    ErrInvalidAddress := sampleErrInvalidAddress }

/-! ## Transaction encoders (`types/tx/generator/encoder.go`)

A `types.Tx` is an interface value: the encoders look at its dynamic type only.
The marshaler is an interface too, so its methods are modelled with explicit
state passing: a call takes the marshaler's state (`σ`) and returns the Go
result pair together with the new state. That makes "the marshaler is not
called" a statement about the state. -/

/-- A `types.Tx` interface value by dynamic type: a `*builder` pointing at the
wrapper `w` (the generator's own builder wrapper), or any other value `v`
(another implementation of `types.Tx`, or the nil interface). -/
inductive Tx (W F : Type) where
  | builderPtr (wrapper : W)
  | other (v : F)

/-- The arguments the source passes to `fmt.Errorf`: the zero value `builder{}`
and the transaction. -/
inductive FmtArg (W F : Type) where
  | builderZero
  | txValue (tx : Tx W F)

/-- The message `txtypes.TxRaw`, with the fields the encoder fills in. -/
structure TxRaw where
  BodyBytes : List Nat
  AuthInfoBytes : List Nat
  Signatures : List (List Nat)
  deriving DecidableEq

/-- A Go result `([]byte, error)`: the bytes (`none` is the nil slice) and the
error (`none` is nil). -/
abbrev EncodeResult (E : Type) := Option (List Nat) × Option E

/-- The two methods of `codec.Marshaler` the encoders call, on the argument
types they are called with (`*txtypes.TxRaw` and the wrapped `*txtypes.Tx`). -/
structure Marshaler (σ T E : Type) where
  MarshalBinaryBare : TxRaw → σ → EncodeResult E × σ
  MarshalJSON : T → σ → EncodeResult E × σ

/-- What else `encoder.go` uses: the methods `GetBodyBytes` and
`GetAuthInfoBytes` of the builder wrapper (`W`), its field `tx` (a
`*txtypes.Tx`, `T`), the field `Signatures` of that transaction, and
`fmt.Errorf`. -/
structure EncoderDeps (W F T E : Type) where
  GetBodyBytes : W → List Nat
  GetAuthInfoBytes : W → List Nat
  tx : W → T
  Signatures : T → List (List Nat)
  Errorf : String → List (FmtArg W F) → E

section Encoder

variable {W F T E σ : Type}

/-- `DefaultTxEncoder` returns the binary encoder of the generator. -/
def DefaultTxEncoder (d : EncoderDeps W F T E) (marshaler : Marshaler σ T E)
    (tx : Tx W F) (s : σ) : EncodeResult E × σ :=
  match tx with
  | .other v =>
    ((none, some (d.Errorf "expected %T, got %T" [.builderZero, .txValue (.other v)])), s)
  | .builderPtr wrapper =>
    let raw : TxRaw :=
      { BodyBytes := d.GetBodyBytes wrapper
        AuthInfoBytes := d.GetAuthInfoBytes wrapper
        Signatures := d.Signatures (d.tx wrapper) }
    marshaler.MarshalBinaryBare raw s

/-- `DefaultJSONTxEncoder` returns the JSON encoder of the generator. -/
def DefaultJSONTxEncoder (d : EncoderDeps W F T E) (marshaler : Marshaler σ T E)
    (tx : Tx W F) (s : σ) : EncodeResult E × σ :=
  match tx with
  | .other v =>
    ((none, some (d.Errorf "expected %T, got %T" [.builderZero, .txValue (.other v)])), s)
  | .builderPtr wrapper =>
    marshaler.MarshalJSON (d.tx wrapper) s

end Encoder

/-! ### Sample instances for the encoders -/

/-- Sample type names for `%T`: a foreign value is given by the name of its
type. -/
def sampleTypeName : FmtArg Nat String → String
  | .builderZero => "generator.builder"
  | .txValue (.builderPtr _) => "*generator.builder"
  | .txValue (.other v) => v

/-- Sample formatting: every `%T` of the format is replaced by the type name of
the next argument. -/
def sampleErrorfChars : List Char → List (FmtArg Nat String) → List Char
  | '%' :: 'T' :: rest, a :: args => (sampleTypeName a).toList ++ sampleErrorfChars rest args
  | c :: rest, args => c :: sampleErrorfChars rest args
  | [], _ => []

/-- Sample imports of `encoder.go`: the wrapper number `n` has body bytes `[n]`,
auth info bytes `[n + 1]` and wraps the transaction `n`, whose only signature is
`[n + 2]`; an error is its text. -/
def sampleEncoderDeps : EncoderDeps Nat String Nat String :=
  { GetBodyBytes := fun w => [w]
    GetAuthInfoBytes := fun w => [w + 1]
    tx := fun w => w
    Signatures := fun t => [[t + 2]]
    Errorf := fun format args => String.mk (sampleErrorfChars format.toList args) }

/-- A sample marshaler whose state is the log of the calls made to it. The
binary encoding is the concatenation of the three fields, refused for the body
`[0]`; the JSON encoding of the transaction `t` is `[t]`. -/
def sampleMarshaler : Marshaler (List String) Nat String :=
  { MarshalBinaryBare := fun raw log =>
      if raw.BodyBytes = [0] then
        ((none, some "cannot marshal"), log ++ ["MarshalBinaryBare"])
      else
        ((some (raw.BodyBytes ++ raw.AuthInfoBytes ++ raw.Signatures.flatten), none),
          log ++ ["MarshalBinaryBare"])
    MarshalJSON := fun t log => ((some [t], none), log ++ ["MarshalJSON"]) }

end CosmosSDK

namespace CosmosSDK

/-! ## Theorems -/

/-- C1: `Packet.ValidateBasic` returns nil exactly when both ports pass the port
validator, both channels pass the channel validator, the sequence and the
timeout height are non-zero and the data is non-empty; the example packet is
accepted exactly when its three distinct identifiers are accepted by the
validators. -/
theorem validateBasic_nil_iff (d : ChannelDeps) (p : Packet) :
    (p.ValidateBasic d = none ↔
      (d.DefaultPortIdentifierValidator p.SourcePort = none ∧
       d.DefaultPortIdentifierValidator p.DestinationPort = none ∧
       d.DefaultChannelIdentifierValidator p.SourceChannel = none ∧
       d.DefaultChannelIdentifierValidator p.DestinationChannel = none ∧
       p.Sequence ≠ 0 ∧ p.TimeoutHeight ≠ 0 ∧ p.Data ≠ [])) ∧
    (examplePacket.ValidateBasic d = none ↔
      (d.DefaultPortIdentifierValidator "transfer" = none ∧
       d.DefaultChannelIdentifierValidator "channel-0" = none ∧
       d.DefaultChannelIdentifierValidator "channel-1" = none)) := by
  constructor
  · unfold Packet.ValidateBasic
    cases d.DefaultPortIdentifierValidator p.SourcePort <;>
    cases d.DefaultPortIdentifierValidator p.DestinationPort <;>
    cases d.DefaultChannelIdentifierValidator p.SourceChannel <;>
    cases d.DefaultChannelIdentifierValidator p.DestinationChannel <;>
    simp
    by_cases h1 : p.Sequence = 0 <;> by_cases h2 : p.TimeoutHeight = 0 <;>
      by_cases h3 : p.Data = [] <;> simp [h1, h2, h3]
  · unfold Packet.ValidateBasic
    simp only [examplePacket, NewPacket, helloBytes]
    cases d.DefaultPortIdentifierValidator "transfer" <;>
    cases d.DefaultChannelIdentifierValidator "channel-0" <;>
    cases d.DefaultChannelIdentifierValidator "channel-1" <;>
    simp

/-- C1 on the sample imports: the example packet is accepted. -/
theorem validateBasic_nil_iff_witness :
    examplePacket.ValidateBasic sampleChannelDeps = none :=
  (validateBasic_nil_iff sampleChannelDeps examplePacket).2.mpr
    ⟨by decide, by decide, by decide⟩

/-- A list of checks whose first reported error is `e` fails first with `e`. -/
theorem firstFailure_append_some (pre post : List (Option SdkError)) (e : SdkError)
    (hpre : ∀ c ∈ pre, c = none) : firstFailure (pre ++ some e :: post) = some e := by
  induction pre with
  | nil => rfl
  | cons c rest ih =>
    have hc : c = none := hpre c (List.mem_cons_self c rest)
    subst hc
    simpa [firstFailure] using ih (fun c hmem => hpre c (List.mem_cons_of_mem _ hmem))

/-- The source of `ValidateBasic` is the first failure of the seven checks. -/
theorem validateBasic_eq_firstFailure (d : ChannelDeps) (p : Packet) :
    p.ValidateBasic d = firstFailure (p.checks d) := by
  unfold Packet.ValidateBasic Packet.checks checkSourcePort checkDestinationPort
    checkSourceChannel checkDestinationChannel checkSequence checkTimeoutHeight checkData
  cases d.DefaultPortIdentifierValidator p.SourcePort <;>
  cases d.DefaultPortIdentifierValidator p.DestinationPort <;>
  cases d.DefaultChannelIdentifierValidator p.SourceChannel <;>
  cases d.DefaultChannelIdentifierValidator p.DestinationChannel <;>
  simp only [Option.map, firstFailure]
  by_cases h1 : p.Sequence = 0 <;> by_cases h2 : p.TimeoutHeight = 0 <;>
    by_cases h3 : p.Data.length = 0 <;> simp [h1, h2, h3, firstFailure]

/-- C2: `Packet.ValidateBasic` returns the error of the first violated check in
the fixed order source port, destination port, source channel, destination
channel, sequence, timeout height, data: it is the first failure of the list of
checks, so whenever the checks before one report nothing and that one reports
`e`, the result is `e` whatever the later checks report; in particular a packet
with four accepted identifiers and sequence 0 fails with the sequence error,
whatever its timeout height and data are. -/
theorem validateBasic_first_violated_check (d : ChannelDeps) (p : Packet) :
    p.ValidateBasic d = firstFailure (p.checks d) ∧
    (∀ (pre post : List (Option SdkError)) (e : SdkError),
      p.checks d = pre ++ some e :: post → (∀ c ∈ pre, c = none) →
        p.ValidateBasic d = some e) ∧
    (d.DefaultPortIdentifierValidator p.SourcePort = none →
      d.DefaultPortIdentifierValidator p.DestinationPort = none →
      d.DefaultChannelIdentifierValidator p.SourceChannel = none →
      d.DefaultChannelIdentifierValidator p.DestinationChannel = none →
      p.Sequence = 0 →
        p.ValidateBasic d = some (Wrap d.ErrInvalidPacket "packet sequence cannot be 0") ∧
        p.ValidateBasic d = checkSequence d p.Sequence) := by
  refine ⟨validateBasic_eq_firstFailure d p, ?_, ?_⟩
  · intro pre post e hsplit hpre
    rw [validateBasic_eq_firstFailure, hsplit]
    exact firstFailure_append_some pre post e hpre
  · intro h1 h2 h3 h4 h5
    unfold Packet.ValidateBasic checkSequence
    simp [h1, h2, h3, h4, h5]

/-- The spec's fixed-order example on the sample imports: identifiers accepted,
sequence 0, timeout height 0 and no data give the sequence error. -/
theorem validateBasic_first_violated_check_witness :
    zeroPacket.TimeoutHeight = 0 ∧ zeroPacket.Data = [] ∧
    zeroPacket.ValidateBasic sampleChannelDeps =
      some (Wrap sampleErrInvalidPacket "packet sequence cannot be 0") :=
  ⟨rfl, rfl,
    ((validateBasic_first_violated_check sampleChannelDeps zeroPacket).2.2
      (by decide) (by decide) (by decide) (by decide) rfl).1⟩

/-- C3 (as stated, refuted): on the sample imports the packet with accepted
identifiers, sequence 0, timeout height 0 and no data fails with
`ErrInvalidPacket` wrapped with `packet sequence cannot be 0`, which is not the
spec's `sequence cannot be 0` nor any other reason of the spec, and neither is
the full text of the error; likewise the timeout and data checks report
`packet timeout cannot be 0` and `packet data bytes cannot be empty`, and a
rejected source port reports a description naming the identifier and the
validator's error. -/
theorem validateBasic_spec_reason_counterexample :
    (zeroPacket.ValidateBasic sampleChannelDeps =
        some (Wrap sampleErrInvalidPacket "packet sequence cannot be 0") ∧
      "packet sequence cannot be 0" ≠ "sequence cannot be 0") ∧
    (¬ ∃ r ∈ specReasons,
        zeroPacket.ValidateBasic sampleChannelDeps = some (Wrap sampleErrInvalidPacket r)) ∧
    ((zeroPacket.ValidateBasic sampleChannelDeps).map SdkError.Error =
        some "packet sequence cannot be 0: invalid packet" ∧
      "packet sequence cannot be 0: invalid packet" ∉ specReasons) ∧
    ((NewPacket [] 1 "transfer" "testchannel1" "transfer" "testchannel2" 0).ValidateBasic
        sampleChannelDeps = some (Wrap sampleErrInvalidPacket "packet timeout cannot be 0") ∧
      "packet timeout cannot be 0" ∉ specReasons) ∧
    ((NewPacket [] 1 "transfer" "testchannel1" "transfer" "testchannel2" 10).ValidateBasic
        sampleChannelDeps =
          some (Wrap sampleErrInvalidPacket "packet data bytes cannot be empty") ∧
      "packet data bytes cannot be empty" ∉ specReasons) ∧
    ((NewPacket [] 0 "" "testchannel1" "transfer" "testchannel2" 0).ValidateBasic
        sampleChannelDeps =
          some (Wrap sampleErrInvalidPacket "invalid source port ID: : invalid identifier") ∧
      "invalid source port ID: : invalid identifier" ∉ specReasons) := by
  decide

/-- C3 (amended): every error `Packet.ValidateBasic` returns is
`ErrInvalidPacket` wrapped with one description. For checks 5, 6 and 7 the
description is exactly `packet sequence cannot be 0`, `packet timeout cannot be 0`
and `packet data bytes cannot be empty`. For a rejected identifier (checks 1 to
4) it is the text `invalid source port ID: <id>` (formatted by `Sprintf`), a
colon and a blank, and the text of the validator's error (with
`destination port`, `source channel`, `destination channel` for checks 2 to 4),
provided that text is left unchanged when it is itself used as a format with
no arguments. -/
theorem validateBasic_error_is_wrapped_invalid_packet (d : ChannelDeps) (p : Packet)
    (e : SdkError) (h : p.ValidateBasic d = some e) :
    ∃ desc : String, e = Wrap d.ErrInvalidPacket desc ∧
      ((∃ err, d.DefaultPortIdentifierValidator p.SourcePort = some err ∧
          (d.Sprintf (d.Sprintf "invalid source port ID: %s" [p.SourcePort]
              ++ ": " ++ err.Error) [] =
            d.Sprintf "invalid source port ID: %s" [p.SourcePort] ++ ": " ++ err.Error →
          desc = d.Sprintf "invalid source port ID: %s" [p.SourcePort]
            ++ ": " ++ err.Error)) ∨
       (∃ err, d.DefaultPortIdentifierValidator p.DestinationPort = some err ∧
          (d.Sprintf (d.Sprintf "invalid destination port ID: %s" [p.DestinationPort]
              ++ ": " ++ err.Error) [] =
            d.Sprintf "invalid destination port ID: %s" [p.DestinationPort]
              ++ ": " ++ err.Error →
          desc = d.Sprintf "invalid destination port ID: %s" [p.DestinationPort]
            ++ ": " ++ err.Error)) ∨
       (∃ err, d.DefaultChannelIdentifierValidator p.SourceChannel = some err ∧
          (d.Sprintf (d.Sprintf "invalid source channel ID: %s" [p.SourceChannel]
              ++ ": " ++ err.Error) [] =
            d.Sprintf "invalid source channel ID: %s" [p.SourceChannel]
              ++ ": " ++ err.Error →
          desc = d.Sprintf "invalid source channel ID: %s" [p.SourceChannel]
            ++ ": " ++ err.Error)) ∨
       (∃ err, d.DefaultChannelIdentifierValidator p.DestinationChannel = some err ∧
          (d.Sprintf (d.Sprintf "invalid destination channel ID: %s" [p.DestinationChannel]
              ++ ": " ++ err.Error) [] =
            d.Sprintf "invalid destination channel ID: %s" [p.DestinationChannel]
              ++ ": " ++ err.Error →
          desc = d.Sprintf "invalid destination channel ID: %s" [p.DestinationChannel]
            ++ ": " ++ err.Error)) ∨
       (p.Sequence = 0 ∧ desc = "packet sequence cannot be 0") ∨
       (p.TimeoutHeight = 0 ∧ desc = "packet timeout cannot be 0") ∨
       (p.Data = [] ∧ desc = "packet data bytes cannot be empty")) := by
  unfold Packet.ValidateBasic at h
  cases h1 : d.DefaultPortIdentifierValidator p.SourcePort with
  | some err =>
    simp only [h1, Option.some.injEq] at h
    exact ⟨_, h.symm, Or.inl ⟨err, rfl, fun hfmt => hfmt⟩⟩
  | none =>
  cases h2 : d.DefaultPortIdentifierValidator p.DestinationPort with
  | some err =>
    simp only [h1, h2, Option.some.injEq] at h
    exact ⟨_, h.symm, Or.inr (Or.inl ⟨err, rfl, fun hfmt => hfmt⟩)⟩
  | none =>
  cases h3 : d.DefaultChannelIdentifierValidator p.SourceChannel with
  | some err =>
    simp only [h1, h2, h3, Option.some.injEq] at h
    exact ⟨_, h.symm, Or.inr (Or.inr (Or.inl ⟨err, rfl, fun hfmt => hfmt⟩))⟩
  | none =>
  cases h4 : d.DefaultChannelIdentifierValidator p.DestinationChannel with
  | some err =>
    simp only [h1, h2, h3, h4, Option.some.injEq] at h
    exact ⟨_, h.symm, Or.inr (Or.inr (Or.inr (Or.inl ⟨err, rfl, fun hfmt => hfmt⟩)))⟩
  | none =>
  simp only [h1, h2, h3, h4] at h
  by_cases h5 : p.Sequence = 0
  · simp only [h5, if_true, Option.some.injEq] at h
    exact ⟨_, h.symm, Or.inr (Or.inr (Or.inr (Or.inr (Or.inl ⟨h5, rfl⟩))))⟩
  by_cases h6 : p.TimeoutHeight = 0
  · simp only [h5, h6, if_true, if_false, Option.some.injEq] at h
    exact ⟨_, h.symm, Or.inr (Or.inr (Or.inr (Or.inr (Or.inr (Or.inl ⟨h6, rfl⟩)))))⟩
  by_cases h7 : p.Data.length = 0
  · simp only [h5, h6, h7, if_true, if_false, Option.some.injEq] at h
    exact ⟨_, h.symm, Or.inr (Or.inr (Or.inr (Or.inr (Or.inr (Or.inr
      ⟨List.length_eq_zero.mp h7, rfl⟩)))))⟩
  · simp [h5, h6, h7] at h

/-- The amended C3 on the sample imports, at a packet whose only defect is its
missing data: the error found is one the theorem describes. -/
theorem validateBasic_error_is_wrapped_invalid_packet_witness :
    (NewPacket [] 1 "transfer" "testchannel1" "transfer" "testchannel2" 10).ValidateBasic
        sampleChannelDeps =
      some (Wrap sampleErrInvalidPacket "packet data bytes cannot be empty") ∧
    ∃ desc : String,
      Wrap sampleErrInvalidPacket "packet data bytes cannot be empty" =
        Wrap sampleErrInvalidPacket desc :=
  ⟨by decide,
    match validateBasic_error_is_wrapped_invalid_packet sampleChannelDeps
      (NewPacket [] 1 "transfer" "testchannel1" "transfer" "testchannel2" 10)
      (Wrap sampleErrInvalidPacket "packet data bytes cannot be empty") (by decide) with
    | ⟨desc, hdesc, _⟩ => ⟨desc, hdesc⟩⟩

/-- Reading the eight bytes back gives the encoded number (modulo `2 ^ 64`). -/
theorem bigEndianValue_Uint64ToBigEndian (i : Nat) :
    bigEndianValue (Uint64ToBigEndian i) = i % 2 ^ 64 := by
  simp only [bigEndianValue, Uint64ToBigEndian, List.foldl]
  omega

/-- The hashed byte string determines the timeout height and the data. -/
theorem commitmentPreimage_inj (p q : Packet) (hp : p.TimeoutHeight < 2 ^ 64)
    (hq : q.TimeoutHeight < 2 ^ 64) (h : commitmentPreimage p = commitmentPreimage q) :
    p.TimeoutHeight = q.TimeoutHeight ∧ p.Data = q.Data := by
  unfold commitmentPreimage at h
  have hlen : (Uint64ToBigEndian p.TimeoutHeight).length =
      (Uint64ToBigEndian q.TimeoutHeight).length := rfl
  obtain ⟨hhead, hdata⟩ := List.append_inj h hlen
  have hval := congrArg bigEndianValue hhead
  rw [bigEndianValue_Uint64ToBigEndian, bigEndianValue_Uint64ToBigEndian,
    Nat.mod_eq_of_lt hp, Nat.mod_eq_of_lt hq] at hval
  exact ⟨hval, hdata⟩

/-- C4: `CommitPacket(p)` is the hash of `B ++ p.Data`, where `B` is the
big-endian encoding of `p.TimeoutHeight` on eight bytes (eight values below 256
that read back, most significant first, as the height); `CommitAcknowledgement(a)`
is the hash of `a`; so `CommitPacket(p) = CommitAcknowledgement(B ++ p.Data)`. -/
theorem commitPacket_is_hash_of_height_and_data (tmhashSum : List Nat → List Nat)
    (p : Packet) (a : List Nat) :
    CommitPacket tmhashSum p = tmhashSum (Uint64ToBigEndian p.TimeoutHeight ++ p.Data) ∧
    (Uint64ToBigEndian p.TimeoutHeight).length = 8 ∧
    (∀ b ∈ Uint64ToBigEndian p.TimeoutHeight, b < 256) ∧
    bigEndianValue (Uint64ToBigEndian p.TimeoutHeight) = p.TimeoutHeight % 2 ^ 64 ∧
    CommitAcknowledgement tmhashSum a = tmhashSum a ∧
    CommitPacket tmhashSum p =
      CommitAcknowledgement tmhashSum (Uint64ToBigEndian p.TimeoutHeight ++ p.Data) := by
  refine ⟨rfl, rfl, ?_, bigEndianValue_Uint64ToBigEndian _, rfl, rfl⟩
  intro b hb
  simp only [Uint64ToBigEndian, List.mem_cons, List.mem_singleton, List.not_mem_nil,
    or_false] at hb
  omega

/-- C4 on the example packet, with the identity in place of the hash: the
hashed bytes are seven zero bytes, the byte 100 and the bytes of `hello`. -/
theorem commitPacket_is_hash_of_height_and_data_witness :
    CommitPacket id examplePacket = [0, 0, 0, 0, 0, 0, 0, 100, 104, 101, 108, 108, 111] :=
  (commitPacket_is_hash_of_height_and_data id examplePacket []).1.trans (by decide)

/-- C5: two packets (with `uint64` timeout heights) that differ in timeout
height or data have different hashed byte strings, big-endian timeout height
followed by data, which are what `CommitPacket` hashes; hence their commitments
differ whenever the hash does not collide on those two byte strings. -/
theorem commitPacket_changes_with_height_or_data (tmhashSum : List Nat → List Nat)
    (p q : Packet)
    (hp : p.TimeoutHeight < 2 ^ 64) (hq : q.TimeoutHeight < 2 ^ 64)
    (hne : (p.TimeoutHeight, p.Data) ≠ (q.TimeoutHeight, q.Data)) :
    commitmentPreimage p ≠ commitmentPreimage q ∧
    CommitPacket tmhashSum p = tmhashSum (commitmentPreimage p) ∧
    CommitPacket tmhashSum q = tmhashSum (commitmentPreimage q) ∧
    ((tmhashSum (commitmentPreimage p) = tmhashSum (commitmentPreimage q) →
        commitmentPreimage p = commitmentPreimage q) →
      CommitPacket tmhashSum p ≠ CommitPacket tmhashSum q) := by
  have hpre : commitmentPreimage p ≠ commitmentPreimage q := by
    intro h
    obtain ⟨h1, h2⟩ := commitmentPreimage_inj p q hp hq h
    exact hne (by rw [h1, h2])
  refine ⟨hpre, rfl, rfl, ?_⟩
  intro hinj hcommit
  exact hpre (hinj hcommit)

/-- C5 on two packets that differ in the timeout height only (100 and 356, whose
low bytes agree), with the identity in place of the hash. -/
theorem commitPacket_changes_with_height_or_data_witness :
    CommitPacket id examplePacket ≠
      CommitPacket id (NewPacket helloBytes 1 "transfer" "channel-0" "transfer" "channel-1" 356) :=
  (commitPacket_changes_with_height_or_data id examplePacket
    (NewPacket helloBytes 1 "transfer" "channel-0" "transfer" "channel-1" 356)
    (by decide) (by decide) (by decide)).2.2.2 (fun h => h)

/-- C6: `MsgCreateClient.ValidateBasic` returns nil exactly when the embedded
consensus state validates and the client identifier validator accepts
`ClientID`; an invalid consensus state has its own error returned unchanged,
whatever the client identifier is; with a valid consensus state the result is
the validator's verdict on `ClientID`, so an empty client identifier is
rejected as soon as the validator rejects the empty identifier. The same holds
for `MsgUpdateClient.ValidateBasic` with the embedded header. -/
theorem createClient_updateClient_validateBasic {CS H EV PK : Type}
    (d : SoloMachineDeps CS H EV PK) (c : MsgCreateClient CS) (u : MsgUpdateClient H) :
    ((c.ValidateBasic d = none ↔
        d.ConsensusStateValidateBasic c.ConsensusState = none ∧
        d.ClientIdentifierValidator c.ClientID = none) ∧
      (∀ err, d.ConsensusStateValidateBasic c.ConsensusState = some err →
        c.ValidateBasic d = some err) ∧
      (d.ConsensusStateValidateBasic c.ConsensusState = none →
        c.ValidateBasic d = d.ClientIdentifierValidator c.ClientID) ∧
      (d.ClientIdentifierValidator "" ≠ none → c.ClientID = "" →
        c.ValidateBasic d ≠ none)) ∧
    ((u.ValidateBasic d = none ↔
        d.HeaderValidateBasic u.Header = none ∧
        d.ClientIdentifierValidator u.ClientID = none) ∧
      (∀ err, d.HeaderValidateBasic u.Header = some err →
        u.ValidateBasic d = some err) ∧
      (d.HeaderValidateBasic u.Header = none →
        u.ValidateBasic d = d.ClientIdentifierValidator u.ClientID) ∧
      (d.ClientIdentifierValidator "" ≠ none → u.ClientID = "" →
        u.ValidateBasic d ≠ none)) := by
  constructor
  · unfold MsgCreateClient.ValidateBasic
    cases hcs : d.ConsensusStateValidateBasic c.ConsensusState with
    | some err0 =>
      refine ⟨by simp, ?_, by simp, by simp⟩
      intro err herr
      exact herr
    | none =>
      refine ⟨by simp, by simp, by simp, ?_⟩
      intro hempty hid
      simpa [hid] using hempty
  · unfold MsgUpdateClient.ValidateBasic
    cases hh : d.HeaderValidateBasic u.Header with
    | some err0 =>
      refine ⟨by simp, ?_, by simp, by simp⟩
      intro err herr
      exact herr
    | none =>
      refine ⟨by simp, by simp, by simp, ?_⟩
      intro hempty hid
      simpa [hid] using hempty

/-- C6 on the sample imports: an invalid consensus state (0) has its error
returned although the client identifier is empty too, and an invalid header (0)
likewise. -/
theorem createClient_updateClient_validateBasic_witness :
    (NewMsgCreateClient "" (0 : Nat)).ValidateBasic sampleSoloMachineDeps =
        some (.registered "solomachine" 1 "invalid consensus state") ∧
    (NewMsgUpdateClient "" (0 : Nat)).ValidateBasic sampleSoloMachineDeps =
        some (.registered "solomachine" 2 "invalid header") :=
  ⟨(createClient_updateClient_validateBasic sampleSoloMachineDeps
      (NewMsgCreateClient "" 0) (NewMsgUpdateClient "" 0)).1.2.1 _ rfl,
   (createClient_updateClient_validateBasic sampleSoloMachineDeps
      (NewMsgCreateClient "" 0) (NewMsgUpdateClient "" 0)).2.2.1 _ rfl⟩

/-- C7: `MsgSubmitClientMisbehaviour.ValidateBasic` returns nil exactly when the
evidence validates and the submitter is a non-empty address; with valid
evidence and an empty submitter it fails with `ErrInvalidAddress` wrapped with
`submitter address cannot be empty`; with invalid evidence it returns the
error of the evidence unchanged, whatever the submitter is. -/
theorem submitMisbehaviour_validateBasic {CS H EV PK : Type}
    (d : SoloMachineDeps CS H EV PK) (m : MsgSubmitClientMisbehaviour EV) :
    (m.ValidateBasic d = none ↔
      d.EvidenceValidateBasic m.Evidence = none ∧ m.Submitter ≠ []) ∧
    (d.EvidenceValidateBasic m.Evidence = none → m.Submitter = [] →
      m.ValidateBasic d =
        some (Wrap d.ErrInvalidAddress "submitter address cannot be empty")) ∧
    (∀ err, d.EvidenceValidateBasic m.Evidence = some err →
      m.ValidateBasic d = some err) := by
  unfold MsgSubmitClientMisbehaviour.ValidateBasic AccAddress.Empty
  cases hev : d.EvidenceValidateBasic m.Evidence with
  | some err0 =>
    refine ⟨by simp, by simp, ?_⟩
    intro err herr
    exact herr
  | none =>
    refine ⟨?_, ?_, by simp⟩
    · cases hs : m.Submitter <;> simp
    · intro _ hs
      simp [hs]

/-- C7 on the sample imports: valid evidence with an empty submitter is an
invalid address, and invalid evidence (0) with an empty submitter is reported
as invalid evidence. -/
theorem submitMisbehaviour_validateBasic_witness :
    (NewMsgSubmitClientMisbehaviour (5 : Nat) []).ValidateBasic sampleSoloMachineDeps =
        some (Wrap sampleErrInvalidAddress "submitter address cannot be empty") ∧
    (NewMsgSubmitClientMisbehaviour (0 : Nat) []).ValidateBasic sampleSoloMachineDeps =
        some (.registered "solomachine" 3 "invalid evidence") :=
  ⟨(submitMisbehaviour_validateBasic sampleSoloMachineDeps
      (NewMsgSubmitClientMisbehaviour 5 [])).2.1 rfl rfl,
   (submitMisbehaviour_validateBasic sampleSoloMachineDeps
      (NewMsgSubmitClientMisbehaviour 0 [])).2.2 _ rfl⟩

/-- C8: `GetSigners` returns exactly one address, a function of the message
alone: for `MsgCreateClient` the address of the public key of the embedded
consensus state, for `MsgUpdateClient` the address of the public key of the
header, for `MsgSubmitClientMisbehaviour` the `Submitter` field; so two
misbehaviour messages with the same submitter have the same signers, whatever
their evidence. -/
theorem getSigners_single_address {CS H EV PK : Type}
    (d : SoloMachineDeps CS H EV PK) (c : MsgCreateClient CS) (u : MsgUpdateClient H)
    (m m2 : MsgSubmitClientMisbehaviour EV) :
    c.GetSigners d = [d.PubKeyAddress (d.ConsensusStateGetPubKey c.ConsensusState)] ∧
    u.GetSigners d = [d.PubKeyAddress (d.HeaderGetPubKey u.Header)] ∧
    m.GetSigners = [m.Submitter] ∧
    (c.GetSigners d).length = 1 ∧ (u.GetSigners d).length = 1 ∧ m.GetSigners.length = 1 ∧
    (m.Submitter = m2.Submitter → m.GetSigners = m2.GetSigners) := by
  refine ⟨rfl, rfl, rfl, rfl, rfl, rfl, ?_⟩
  intro hs
  simp [MsgSubmitClientMisbehaviour.GetSigners, hs]

/-- C8 on two misbehaviour messages with the submitter `[1, 2, 3]` and the
different pieces of evidence 5 and 6. -/
theorem getSigners_single_address_witness :
    (5 : Nat) ≠ 6 ∧
    (NewMsgSubmitClientMisbehaviour (5 : Nat) [1, 2, 3]).GetSigners =
      (NewMsgSubmitClientMisbehaviour (6 : Nat) [1, 2, 3]).GetSigners :=
  ⟨by decide,
    (getSigners_single_address sampleSoloMachineDeps (NewMsgCreateClient "solomachine" 1)
      (NewMsgUpdateClient "solomachine" 1) (NewMsgSubmitClientMisbehaviour 5 [1, 2, 3])
      (NewMsgSubmitClientMisbehaviour 6 [1, 2, 3])).2.2.2.2.2.2 rfl⟩

/-- C10: `CommitPacket` reads no packet field other than `TimeoutHeight` and
`Data`: two packets with the same timeout height and the same data have the
same commitment, whatever their sequences, ports and channels are. -/
theorem commitPacket_depends_on_height_and_data_only (tmhashSum : List Nat → List Nat)
    (p q : Packet) (hheight : p.TimeoutHeight = q.TimeoutHeight) (hdata : p.Data = q.Data) :
    CommitPacket tmhashSum p = CommitPacket tmhashSum q := by
  simp only [CommitPacket, Packet.GetTimeoutHeight, Packet.GetData, hheight, hdata]

/-- C10 on two packets that differ in sequence, ports and channels, with the
identity in place of the hash. -/
theorem commitPacket_depends_on_height_and_data_only_witness :
    examplePacket ≠ NewPacket helloBytes 7 "bank" "testchannel1" "bank" "testchannel2" 100 ∧
    CommitPacket id examplePacket =
      CommitPacket id (NewPacket helloBytes 7 "bank" "testchannel1" "bank" "testchannel2" 100) :=
  ⟨by decide,
    commitPacket_depends_on_height_and_data_only id examplePacket
      (NewPacket helloBytes 7 "bank" "testchannel1" "bank" "testchannel2" 100) rfl rfl⟩

/-- C11: on a transaction that is not the generator's builder wrapper both
encoders return no bytes and the error `fmt.Errorf("expected %T, got %T",
builder{}, tx)`, leave the marshaler's state untouched and return the same
result whatever the marshaler is (the marshaler is not called); on a builder
wrapper the binary encoder returns exactly what the marshaler's
`MarshalBinaryBare` returns, bytes and error, on the `TxRaw` made of the
wrapper's body bytes, its auth info bytes and the signatures of the wrapped
transaction, and the JSON encoder returns exactly what the marshaler's
`MarshalJSON` returns on the wrapped transaction. -/
theorem defaultTxEncoder_foreign_or_marshaler {W F T E σ : Type}
    (d : EncoderDeps W F T E) (marshaler : Marshaler σ T E) (s : σ) :
    (∀ v : F,
      DefaultTxEncoder d marshaler (.other v) s =
        ((none, some (d.Errorf "expected %T, got %T"
          [.builderZero, .txValue (.other v)])), s) ∧
      DefaultJSONTxEncoder d marshaler (.other v) s =
        ((none, some (d.Errorf "expected %T, got %T"
          [.builderZero, .txValue (.other v)])), s)) ∧
    (∀ (v : F) (σ2 : Type) (marshaler2 : Marshaler σ2 T E) (s2 : σ2),
      (DefaultTxEncoder d marshaler (.other v) s).1 =
        (DefaultTxEncoder d marshaler2 (.other v) s2).1 ∧
      (DefaultJSONTxEncoder d marshaler (.other v) s).1 =
        (DefaultJSONTxEncoder d marshaler2 (.other v) s2).1) ∧
    (∀ w : W,
      DefaultTxEncoder d marshaler (.builderPtr w) s =
        marshaler.MarshalBinaryBare
          { BodyBytes := d.GetBodyBytes w
            AuthInfoBytes := d.GetAuthInfoBytes w
            Signatures := d.Signatures (d.tx w) } s ∧
      DefaultJSONTxEncoder d marshaler (.builderPtr w) s =
        marshaler.MarshalJSON (d.tx w) s) := by
  refine ⟨fun v => ⟨rfl, rfl⟩, fun v σ2 marshaler2 s2 => ⟨rfl, rfl⟩, fun w => ⟨?_, ?_⟩⟩
  · simp only [DefaultTxEncoder]
  · simp only [DefaultJSONTxEncoder]

/-- C11 on the sample imports, from an empty call log: a foreign transaction of
type `*legacytx.StdTx` gets the type error and the log stays empty; the wrapper
7 is encoded by one call of the marshaler; the wrapper 0, which the sample
marshaler refuses, gets the marshaler's error; the JSON encoder returns the
marshaler's JSON bytes. -/
theorem defaultTxEncoder_foreign_or_marshaler_witness :
    DefaultTxEncoder sampleEncoderDeps sampleMarshaler (.other "*legacytx.StdTx") [] =
      ((none, some "expected generator.builder, got *legacytx.StdTx"), []) ∧
    DefaultTxEncoder sampleEncoderDeps sampleMarshaler (.builderPtr 7) [] =
      ((some [7, 8, 9], none), ["MarshalBinaryBare"]) ∧
    DefaultTxEncoder sampleEncoderDeps sampleMarshaler (.builderPtr 0) [] =
      ((none, some "cannot marshal"), ["MarshalBinaryBare"]) ∧
    DefaultJSONTxEncoder sampleEncoderDeps sampleMarshaler (.builderPtr 7) [] =
      ((some [7], none), ["MarshalJSON"]) :=
  ⟨((defaultTxEncoder_foreign_or_marshaler sampleEncoderDeps sampleMarshaler []).1
      "*legacytx.StdTx").1.trans (by decide),
   ((defaultTxEncoder_foreign_or_marshaler sampleEncoderDeps sampleMarshaler []).2.2
      7).1.trans (by decide),
   ((defaultTxEncoder_foreign_or_marshaler sampleEncoderDeps sampleMarshaler []).2.2
      0).1.trans (by decide),
   ((defaultTxEncoder_foreign_or_marshaler sampleEncoderDeps sampleMarshaler []).2.2
      7).2.trans (by decide)⟩

end CosmosSDK
